import Mathlib

/-!
Shallow embedding of the conversation-relay bot in `src/bot.py`, together with
theorems settling the specification claims about it.

The embedding covers:
* `ConversationManager` (named ConversationStore in the spec): per-chat bounded
  history (`collections.deque` with `maxlen = max_size`) plus a per-chat
  `parent_ids` map, with the operations `add_message`, `get_context`,
  `get_parent_id`, `clear_context`, `format_context_for_prompt`;
* `GPT5Client.call_agent` (named AgentClient.call in the spec): payload
  construction and the response/exception handling, modelled over an explicit
  HTTP outcome;
* the store-relevant part of `TelegramBot.process_message`: the order of the
  user-turn append, prompt construction, the agent call and the assistant-turn
  append, including the failure path.

Python dictionaries are modelled as functions `Int → Option α` (only point
lookups, point updates and point deletions occur in the source, so insertion
order of the dict is irrelevant).  Wall-clock timestamps
(`datetime.now().isoformat()`) are passed in as explicit string parameters.
-/

namespace TgAgent

/-- One recorded conversation turn: the dict
with keys `role`, `content`, `timestamp` built in
`ConversationManager.add_message`. -/
structure Turn where
  role : String
  content : String
  timestamp : String
deriving DecidableEq, Repr

/-- Source constant `MAX_CONTEXT_SIZE = 10` (bot.py line 33). -/
def MAX_CONTEXT_SIZE : Nat := 10

/-- Source constant `REQUEST_TIMEOUT = 30` (bot.py line 34). -/
def REQUEST_TIMEOUT : Nat := 30

/-- State of `ConversationManager`: `max_size`, the dict `contexts`
(chat id ↦ deque of turns, modelled as a list, oldest first), and the dict
`parent_ids` (chat id ↦ last stored assistant message id). -/
structure ConversationManager where
  max_size : Nat
  contexts : Int → Option (List Turn)
  parent_ids : Int → Option String

/-- Source constructor `ConversationManager.__init__`: empty dicts, capacity `max_size`
(default `MAX_CONTEXT_SIZE`). -/
def ConversationManager.init (max_size : Nat := MAX_CONTEXT_SIZE) :
    ConversationManager :=
  { max_size := max_size, contexts := fun _ => none, parent_ids := fun _ => none }

/-- Behaviour of `deque(maxlen).append`: append on the right and keep only the
last `maxlen` elements (the oldest element is discarded when full). -/
def dequeAppend (maxlen : Nat) (q : List Turn) (t : Turn) : List Turn :=
  let q' := q ++ [t]
  q'.drop (q'.length - maxlen)

/-- Python truthiness of an `Optional[str]`: `None` and `""` are falsy. -/
def optStrTruthy : Option String → Bool
  | none => false
  | some s => !(s == "")

/-- Source method `ConversationManager.add_message(chat_id, role, content, message_id)`:
lazily create the deque, append the new turn (evicting the oldest when at
capacity), and, when `role` equals `assistant` and `message_id` is truthy, set
`parent_ids[chat_id] = message_id`. -/
def ConversationManager.add_message (m : ConversationManager) (chat_id : Int)
    (role content : String) (message_id : Option String) (timestamp : String) :
    ConversationManager :=
  let q := (m.contexts chat_id).getD []
  let q' := dequeAppend m.max_size q ⟨role, content, timestamp⟩
  { m with
    contexts := fun id => if id = chat_id then some q' else m.contexts id
    parent_ids :=
      if role == "assistant" && optStrTruthy message_id then
        fun id => if id = chat_id then message_id else m.parent_ids id
      else
        m.parent_ids }

/-- Source method `ConversationManager.get_context`: the list of turns for the chat, `[]`
when the chat is unknown. -/
def ConversationManager.get_context (m : ConversationManager) (chat_id : Int) :
    List Turn :=
  (m.contexts chat_id).getD []

/-- Source method `ConversationManager.get_parent_id`: `self.parent_ids.get(chat_id)`. -/
def ConversationManager.get_parent_id (m : ConversationManager) (chat_id : Int) :
    Option String :=
  m.parent_ids chat_id

/-- Source method `ConversationManager.clear_context`: delete the entries of the chat from both
dicts (a missing key is simply not deleted). -/
def ConversationManager.clear_context (m : ConversationManager) (chat_id : Int) :
    ConversationManager :=
  { m with
    contexts := fun id => if id = chat_id then none else m.contexts id
    parent_ids := fun id => if id = chat_id then none else m.parent_ids id }

/-- Python `str.capitalize`: first character upper-cased, the rest
lower-cased. -/
def pyCapitalize (s : String) : String :=
  match s.data with
  | [] => ""
  | c :: cs => String.mk (c.toUpper :: cs.map Char.toLower)

/-- The line contributed by one turn in `format_context_for_prompt`. -/
def turnLine (t : Turn) : String :=
  pyCapitalize t.role ++ ": " ++ t.content ++ "\n"

/-- Source method `ConversationManager.format_context_for_prompt`: `""` when the context is
empty, otherwise the header `"Previous conversation:\n"` followed by one line
per turn in chronological order. -/
def ConversationManager.format_context_for_prompt (m : ConversationManager)
    (chat_id : Int) : String :=
  let context := m.get_context chat_id
  if context.isEmpty then ""
  else context.foldl (fun acc t => acc ++ turnLine t) "Previous conversation:\n"

/-- The prompt built in `TelegramBot.process_message` (bot.py lines 220–221):
`f"…" if context_str else user_message`, with Python truthiness of the
string. -/
def build_prompt (m : ConversationManager) (chat_id : Int)
    (user_message : String) : String :=
  let context_str := m.format_context_for_prompt chat_id
  if context_str == "" then user_message
  else context_str ++ "\nCurrent message: " ++ user_message

/-! ### `GPT5Client` (named AgentClient in the spec) -/

/-- A decoded JSON response body: the two optional fields the client reads. -/
structure JsonBody where
  message : Option String
  id : Option String
deriving DecidableEq, Repr

deriving instance DecidableEq for Except

/-- Outcome of the single `session.post` performed by `call_agent`:
a timeout (`requests.exceptions.Timeout`), some other transport-level
exception with its rendered detail (`requests.exceptions.RequestException`
without a usable response), or an HTTP response with a status code, a reason
phrase, and a body (`.error` when the body fails to decode as JSON, carrying
the rendered detail of the decode error; JSON decode errors are
`requests.exceptions.RequestException`s and reach the same handler). -/
inductive HttpOutcome where
  | timeout
  | transportError (detail : String)
  | response (status : Nat) (reason : String) (body : Except String JsonBody)
deriving DecidableEq, Repr

/-- The two exception branches of `call_agent`: the `Timeout` handler and the
generic `RequestException` handler, each re-raising with its own message. -/
inductive AgentError where
  | timeout (msg : String)
  | requestFailed (msg : String)
deriving DecidableEq, Repr

/-- The request URL `f"\x7bself.base_url\x7d/agents/\x7bself.access_id\x7d/call"`. -/
def agentUrl (access_id base_url : String) : String :=
  base_url ++ "/agents/" ++ access_id ++ "/call"

/-- The JSON payload built by `call_agent` (bot.py lines 107–112), as an
ordered key/value list: always `"message"`, plus `"parent_message_id"` when
`parent_message_id` is truthy (`if parent_message_id:` — `None` and `""` are
both falsy). -/
def build_payload (message : String) (parent_message_id : Option String) :
    List (String × String) :=
  let payload := [("message", message)]
  match parent_message_id with
  | none => payload
  | some pid => if pid == "" then payload else payload ++ [("parent_message_id", pid)]

/-- The message of the `requests.HTTPError` raised by
`Response.raise_for_status`: raised exactly for status codes in `[400, 600)`,
with a `Client Error`/`Server Error` text carrying status, reason and URL. -/
def raiseForStatusError (status : Nat) (reason url : String) : Option String :=
  if 400 ≤ status ∧ status < 500 then
    some (toString status ++ " Client Error: " ++ reason ++ " for url: " ++ url)
  else if 500 ≤ status ∧ status < 600 then
    some (toString status ++ " Server Error: " ++ reason ++ " for url: " ++ url)
  else none

/-- Source method `GPT5Client.call_agent` (bot.py lines 98–133), as a function of the
outcome of its single HTTP POST.  On a response it runs `raise_for_status`,
then decodes JSON and returns
`(data.get("message", "No response"), data.get("id", ""))`; the `Timeout`
handler raises `"Request timed out. Please try again."` and the
`RequestException` handler raises `"Failed to get response from AI: " + str(e)`. -/
def call_agent (access_id base_url : String) (outcome : HttpOutcome) :
    Except AgentError (String × String) :=
  match outcome with
  | .timeout => .error (.timeout "Request timed out. Please try again.")
  | .transportError detail =>
      .error (.requestFailed ("Failed to get response from AI: " ++ detail))
  | .response status reason body =>
      match raiseForStatusError status reason (agentUrl access_id base_url) with
      | some httpErr =>
          .error (.requestFailed ("Failed to get response from AI: " ++ httpErr))
      | none =>
          match body with
          | .error jsonErr =>
              .error (.requestFailed ("Failed to get response from AI: " ++ jsonErr))
          | .ok data => .ok (data.message.getD "No response", data.id.getD "")

/-- Running `call_agent` against a server modelled as a stream of outcomes: the source
performs exactly one `session.post` per call, so only the first outcome is
consumed (no retries). -/
def call_agent_on_stream (access_id base_url : String)
    (outcomes : Nat → HttpOutcome) : Except AgentError (String × String) :=
  call_agent access_id base_url (outcomes 0)

/-! ### The store-relevant part of `TelegramBot.process_message` -/

/-- Result of the agent call as seen by `process_message`: success with
`(response_text, message_id)`, or a raised exception. -/
inductive CallResult where
  | ok (response_text message_id : String)
  | failure
deriving DecidableEq, Repr

/-- Observable effect of one run of `TelegramBot.process_message`
(bot.py lines 215–243) on the conversation store: the user turn is appended
first, then the prompt is built from the updated context, then the agent is
called with the prompt and the stored parent id; on success the assistant
turn is appended with the returned message id and the reply is sent, on an
exception nothing further is written to the store.  `reply` is the text sent
back on success, `none` on failure. -/
structure ProcessResult where
  store : ConversationManager
  context_str : String
  full_prompt : String
  parent_id : Option String
  reply : Option String

/-- The `process_message` flow; `call` models
`self.gpt_client.call_agent`, and `ts_user`/`ts_assistant` are the wall-clock
timestamps of the two `add_message` calls. -/
def process_message (m : ConversationManager) (chat_id : Int)
    (user_message : String) (ts_user ts_assistant : String)
    (call : String → Option String → CallResult) : ProcessResult :=
  let m1 := m.add_message chat_id "user" user_message none ts_user
  let context_str := m1.format_context_for_prompt chat_id
  let full_prompt := build_prompt m1 chat_id user_message
  let parent_id := m1.get_parent_id chat_id
  match call full_prompt parent_id with
  | .ok response_text message_id =>
      { store := m1.add_message chat_id "assistant" response_text (some message_id) ts_assistant
        context_str := context_str
        full_prompt := full_prompt
        parent_id := parent_id
        reply := some response_text }
  | .failure =>
      { store := m1
        context_str := context_str
        full_prompt := full_prompt
        parent_id := parent_id
        reply := none }

/-! ### Operation sequences over the store -/

/-- One store operation, as dispatched by the bot handlers: `add_message`
(from `process_message`) or `clear_context` (from `/resetc`). -/
inductive Op where
  | append (chat_id : Int) (role content : String) (message_id : Option String)
      (timestamp : String)
  | reset (chat_id : Int)
deriving DecidableEq, Repr

/-- Apply one operation. -/
def applyOp (m : ConversationManager) : Op → ConversationManager
  | .append chat_id role content message_id timestamp =>
      m.add_message chat_id role content message_id timestamp
  | .reset chat_id => m.clear_context chat_id

/-- Apply a sequence of operations, oldest first. -/
def applyOps (m : ConversationManager) (ops : List Op) : ConversationManager :=
  ops.foldl applyOp m

/-- Number of appends for a given chat id in a sequence. -/
def appendCount (chat_id : Int) : List Op → Nat
  | [] => 0
  | .append c _ _ _ _ :: rest =>
      (if c = chat_id then 1 else 0) + appendCount chat_id rest
  | .reset _ :: rest => appendCount chat_id rest

/-- Whether a sequence contains a reset of a given chat id. -/
def hasReset (chat_id : Int) : List Op → Bool
  | [] => false
  | .append _ _ _ _ _ :: rest => hasReset chat_id rest
  | .reset c :: rest => c == chat_id || hasReset chat_id rest

/-- Whether a sequence consists of appends only. -/
def appendsOnly : List Op → Bool
  | [] => true
  | .append _ _ _ _ _ :: rest => appendsOnly rest
  | .reset _ :: _ => false

/-- Spec-side description of the parent pointer, for comparison with the
store: the external id supplied by the most recent assistant append carrying a
non-empty external id, threaded as an accumulator over the appends (the
accumulator starts as `none`, meaning absent). -/
def specParentId (chat_id : Int) : List Op → Option String → Option String
  | [], acc => acc
  | .append c role _ mid _ :: rest, acc =>
      specParentId chat_id rest
        (if c = chat_id ∧ role = "assistant" ∧ optStrTruthy mid then mid else acc)
  | .reset _ :: rest, acc => specParentId chat_id rest acc

/-! ### Concrete example data used by witnesses and counterexamples -/

/-- Three concrete turns (with the message id passed alongside each), used to
exercise the capacity-2 window. -/
def exampleRecs : List (Turn × Option String) :=
  [(⟨"user", "a", "t1"⟩, none), (⟨"assistant", "b", "t2"⟩, some "i1"),
   (⟨"user", "c", "t3"⟩, none)]

/-- A store whose chat 0 holds one user turn `"hi"` and one assistant turn
`"yo"`. -/
def historyHiYo : ConversationManager :=
  ((ConversationManager.init 10).add_message 0 "user" "hi" none
      "t1").add_message 0 "assistant" "yo" none "t2"

/-- An agent call that always raises. -/
def alwaysFail : String → Option String → CallResult := fun _ _ => .failure

/-! ### Helper lemmas about the embedded operations -/

theorem dequeAppend_eq_rtake (maxlen : Nat) (q : List Turn) (t : Turn) :
    dequeAppend maxlen q t = (q ++ [t]).rtake maxlen := rfl

theorem length_dequeAppend (maxlen : Nat) (q : List Turn) (t : Turn) :
    (dequeAppend maxlen q t).length = min (q.length + 1) maxlen := by
  simp [dequeAppend]
  omega

theorem rtake_of_length_le {α : Type} {q : List α} {n : Nat} (h : q.length ≤ n) :
    q.rtake n = q := by
  rw [List.rtake, Nat.sub_eq_zero_of_le h, List.drop_zero]

theorem rtake_append_rtake {α : Type} (n : Nat) (x y : List α) :
    (x.rtake n ++ y).rtake n = (x ++ y).rtake n := by
  rw [List.rtake_eq_reverse_take_reverse (x.rtake n ++ y) n,
    List.rtake_eq_reverse_take_reverse (x ++ y) n,
    List.rtake_eq_reverse_take_reverse x n,
    List.reverse_append, List.reverse_append, List.reverse_reverse,
    List.take_append_eq_append_take, List.take_append_eq_append_take,
    List.take_take, min_eq_left (Nat.sub_le _ _)]

theorem foldl_dequeAppend (maxlen : Nat) (ts : List Turn) :
    ∀ q : List Turn, q.length ≤ maxlen →
      ts.foldl (dequeAppend maxlen) q = (q ++ ts).rtake maxlen := by
  induction ts with
  | nil => intro q h; simp [rtake_of_length_le h]
  | cons t ts ih =>
      intro q h
      rw [List.foldl_cons,
        ih (dequeAppend maxlen q t) (by rw [length_dequeAppend]; omega),
        dequeAppend_eq_rtake, rtake_append_rtake]
      simp

theorem max_size_add_message (m : ConversationManager) (c : Int)
    (role content : String) (mid : Option String) (ts : String) :
    (m.add_message c role content mid ts).max_size = m.max_size := rfl

theorem max_size_clear_context (m : ConversationManager) (c : Int) :
    (m.clear_context c).max_size = m.max_size := rfl

theorem max_size_applyOp (m : ConversationManager) (op : Op) :
    (applyOp m op).max_size = m.max_size := by
  cases op <;> rfl

theorem max_size_applyOps (ops : List Op) :
    ∀ m : ConversationManager, (applyOps m ops).max_size = m.max_size := by
  induction ops with
  | nil => intro m; rfl
  | cons op ops ih =>
      intro m
      rw [show applyOps m (op :: ops) = applyOps (applyOp m op) ops from rfl,
        ih, max_size_applyOp]

theorem get_context_add_message (m : ConversationManager) (c : Int)
    (role content : String) (mid : Option String) (ts : String) (id : Int) :
    (m.add_message c role content mid ts).get_context id
      = if id = c then
          dequeAppend m.max_size (m.get_context c) ⟨role, content, ts⟩
        else m.get_context id := by
  by_cases h : id = c <;>
    simp [ConversationManager.add_message, ConversationManager.get_context, h]

theorem get_context_clear_context (m : ConversationManager) (c id : Int) :
    (m.clear_context c).get_context id
      = if id = c then [] else m.get_context id := by
  by_cases h : id = c <;>
    simp [ConversationManager.clear_context, ConversationManager.get_context, h]

theorem get_parent_id_add_message (m : ConversationManager) (c : Int)
    (role content : String) (mid : Option String) (ts : String) (id : Int) :
    (m.add_message c role content mid ts).get_parent_id id
      = if role == "assistant" && optStrTruthy mid then
          (if id = c then mid else m.get_parent_id id)
        else m.get_parent_id id := by
  by_cases hb : (role == "assistant" && optStrTruthy mid) = true
  · by_cases h : id = c <;>
      simp [ConversationManager.add_message, ConversationManager.get_parent_id, hb, h]
  · simp [ConversationManager.add_message, ConversationManager.get_parent_id, hb]

theorem get_parent_id_clear_context (m : ConversationManager) (c id : Int) :
    (m.clear_context c).get_parent_id id
      = if id = c then none else m.get_parent_id id := by
  by_cases h : id = c <;>
    simp [ConversationManager.clear_context, ConversationManager.get_parent_id, h]

theorem length_get_context_applyOps_le (ops : List Op) :
    ∀ m : ConversationManager,
      (∀ j, (m.get_context j).length ≤ m.max_size) →
      ∀ id, ((applyOps m ops).get_context id).length ≤ m.max_size := by
  induction ops with
  | nil => intro m h id; exact h id
  | cons op ops ih =>
      intro m h id
      have h' : ∀ j, ((applyOp m op).get_context j).length ≤ (applyOp m op).max_size := by
        intro j
        rw [max_size_applyOp]
        cases op with
        | append c r ct mid ts =>
            rw [show applyOp m (.append c r ct mid ts) = m.add_message c r ct mid ts
                from rfl,
              get_context_add_message]
            by_cases hj : j = c
            · rw [if_pos hj, length_dequeAppend]; omega
            · rw [if_neg hj]; exact h j
        | reset c =>
            rw [show applyOp m (.reset c) = m.clear_context c from rfl,
              get_context_clear_context]
            by_cases hj : j = c
            · simp [hj]
            · rw [if_neg hj]; exact h j
      have h2 := ih (applyOp m op) h' id
      rw [max_size_applyOp] at h2
      exact h2

theorem length_get_context_applyOps_no_reset (id : Int) (ops : List Op) :
    ∀ m : ConversationManager, hasReset id ops = false →
      (m.get_context id).length ≤ m.max_size →
      ((applyOps m ops).get_context id).length
        = min ((m.get_context id).length + appendCount id ops) m.max_size := by
  induction ops with
  | nil =>
      intro m _ h2
      show (m.get_context id).length = _
      simp [appendCount]
      omega
  | cons op ops ih =>
      intro m hr h2
      cases op with
      | append c r ct mid ts =>
          have hr' : hasReset id ops = false := by simpa [hasReset] using hr
          by_cases hj : id = c
          · subst hj
            have hstep := ih (m.add_message id r ct mid ts) hr' (by
              rw [get_context_add_message, max_size_add_message, if_pos rfl,
                length_dequeAppend]
              omega)
            rw [show applyOps m (.append id r ct mid ts :: ops)
                = applyOps (m.add_message id r ct mid ts) ops from rfl,
              hstep, max_size_add_message, get_context_add_message, if_pos rfl,
              length_dequeAppend,
              show appendCount id (Op.append id r ct mid ts :: ops)
                = (if id = id then 1 else 0) + appendCount id ops from rfl,
              if_pos rfl]
            omega
          · have hcj : ¬(c = id) := fun hcc => hj hcc.symm
            have hstep := ih (m.add_message c r ct mid ts) hr' (by
              rw [get_context_add_message, max_size_add_message, if_neg hj]
              exact h2)
            rw [show applyOps m (.append c r ct mid ts :: ops)
                = applyOps (m.add_message c r ct mid ts) ops from rfl,
              hstep, max_size_add_message, get_context_add_message, if_neg hj,
              show appendCount id (Op.append c r ct mid ts :: ops)
                = (if c = id then 1 else 0) + appendCount id ops from rfl,
              if_neg hcj]
            omega
      | reset c =>
          have hcr : (c == id) = false ∧ hasReset id ops = false := by
            simpa [hasReset] using hr
          have hcj : ¬(id = c) := by
            intro hcc
            exact absurd (by simp [hcc] : (c == id) = true) (by simp [hcr.1])
          have hstep := ih (m.clear_context c) hcr.2 (by
            rw [get_context_clear_context, max_size_clear_context, if_neg hcj]
            exact h2)
          rw [show applyOps m (.reset c :: ops) = applyOps (m.clear_context c) ops
              from rfl,
            hstep, max_size_clear_context, get_context_clear_context, if_neg hcj]
          rfl

/-- Claim C1: for every chat id and every sequence of append and reset
operations on a store of capacity `N`, the history length is at most `N` at
all times; once `N` or more appends have occurred for that chat with no
intervening reset of it, the length is exactly `N`. -/
theorem C1_window_bound (N : Nat) (ops ops2 : List Op) (id : Int) :
    ((applyOps (ConversationManager.init N) ops).get_context id).length ≤ N ∧
    (hasReset id ops2 = false → N ≤ appendCount id ops2 →
      ((applyOps (applyOps (ConversationManager.init N) ops) ops2).get_context
          id).length = N) := by
  have h0 : ∀ j, (((ConversationManager.init N)).get_context j).length
      ≤ (ConversationManager.init N).max_size := by
    intro j
    simp [ConversationManager.init, ConversationManager.get_context]
  constructor
  · exact length_get_context_applyOps_le ops (ConversationManager.init N) h0 id
  · intro hr hn
    have hms : (applyOps (ConversationManager.init N) ops).max_size = N :=
      max_size_applyOps ops (ConversationManager.init N)
    have hb := length_get_context_applyOps_le ops (ConversationManager.init N) h0 id
    have := length_get_context_applyOps_no_reset id ops2
      (applyOps (ConversationManager.init N) ops) hr (by rw [hms]; exact hb)
    rw [this, hms]
    omega

/-- Witness for C1 at capacity 2 with three appends and no reset. -/
theorem C1_window_bound_witness :
    ((applyOps (applyOps (ConversationManager.init 2) [])
        [.append 0 "user" "a" none "t1", .append 0 "user" "b" none "t2",
         .append 0 "user" "c" none "t3"]).get_context 0).length = 2 :=
  (C1_window_bound 2 []
    [.append 0 "user" "a" none "t1", .append 0 "user" "b" none "t2",
     .append 0 "user" "c" none "t3"] 0).2 rfl (by decide)

theorem get_context_applyOps_append_list (id : Int)
    (recs : List (Turn × Option String)) :
    ∀ m : ConversationManager,
      (applyOps m (recs.map fun r =>
          Op.append id r.1.role r.1.content r.2 r.1.timestamp)).get_context id
        = (recs.map Prod.fst).foldl (dequeAppend m.max_size) (m.get_context id) := by
  induction recs with
  | nil => intro m; rfl
  | cons r rs ih =>
      intro m
      simp only [List.map_cons, List.foldl_cons]
      rw [show applyOps m (Op.append id r.1.role r.1.content r.2 r.1.timestamp
            :: rs.map fun r => Op.append id r.1.role r.1.content r.2 r.1.timestamp)
          = applyOps (m.add_message id r.1.role r.1.content r.2 r.1.timestamp)
            (rs.map fun r => Op.append id r.1.role r.1.content r.2 r.1.timestamp)
          from rfl,
        ih, max_size_add_message, get_context_add_message, if_pos rfl]

/-- Claim C2: eviction is FIFO — appending `N + 1` turns in order to an empty
store of capacity `N` leaves exactly the last `N` turns, in insertion
order (the oldest turn is the one evicted). -/
theorem C2_fifo_eviction (N : Nat) (id : Int)
    (recs : List (Turn × Option String)) (h : recs.length = N + 1) :
    (applyOps (ConversationManager.init N)
        (recs.map fun r =>
          Op.append id r.1.role r.1.content r.2 r.1.timestamp)).get_context id
      = (recs.map Prod.fst).drop 1 := by
  rw [get_context_applyOps_append_list]
  have h0 : ((ConversationManager.init N).get_context id) = [] := rfl
  rw [h0, foldl_dequeAppend _ _ _ (by simp), List.nil_append]
  show (recs.map Prod.fst).drop ((recs.map Prod.fst).length - N) = _
  rw [List.length_map, h]
  congr 1
  omega

/-- Witness for C2: capacity 2, three appended turns, the first is evicted. -/
theorem C2_fifo_eviction_witness :
    (applyOps (ConversationManager.init 2)
        (exampleRecs.map fun r =>
          Op.append 0 r.1.role r.1.content r.2 r.1.timestamp)).get_context 0
      = [⟨"assistant", "b", "t2"⟩, ⟨"user", "c", "t3"⟩] :=
  (C2_fifo_eviction 2 0 exampleRecs rfl).trans (by decide)

theorem get_parent_id_applyOps_appends (id : Int) (ops : List Op) :
    ∀ m : ConversationManager, appendsOnly ops = true →
      (applyOps m ops).get_parent_id id
        = specParentId id ops (m.get_parent_id id) := by
  induction ops with
  | nil => intro m _; rfl
  | cons op ops ih =>
      intro m h
      cases op with
      | append c role ct mid ts =>
          have h' : appendsOnly ops = true := by simpa [appendsOnly] using h
          rw [show applyOps m (.append c role ct mid ts :: ops)
              = applyOps (m.add_message c role ct mid ts) ops from rfl,
            ih (m.add_message c role ct mid ts) h',
            show specParentId id (.append c role ct mid ts :: ops)
                (m.get_parent_id id)
              = specParentId id ops
                (if c = id ∧ role = "assistant" ∧ optStrTruthy mid then mid
                 else m.get_parent_id id) from rfl]
          congr 1
          rw [get_parent_id_add_message]
          by_cases hc : c = id
          · by_cases hrole : role = "assistant"
            · by_cases ht : optStrTruthy mid = true
              · simp [hc, hrole, ht]
              · simp [hc, hrole, ht]
            · simp [hc, hrole]
          · have hic : ¬(id = c) := fun hcc => hc hcc.symm
            by_cases hrole : role = "assistant"
            · by_cases ht : optStrTruthy mid = true
              · simp [hc, hic, hrole, ht]
              · simp [hc, hrole, ht]
            · simp [hc, hrole]
      | reset c => exact absurd h (by simp [appendsOnly])

/-- Claim C4: after any sequence of appends from a fresh store, the parent id
of a chat is the external id of its most recent assistant append that carried
a non-empty external id (overwrite semantics); assistant appends with no id
and user appends leave it unchanged, and it is absent when no qualifying
assistant append occurred. -/
theorem C4_parent_id_tracking (N : Nat) (ops : List Op) (id : Int)
    (h : appendsOnly ops = true) :
    (applyOps (ConversationManager.init N) ops).get_parent_id id
      = specParentId id ops none := by
  rw [get_parent_id_applyOps_appends id ops (ConversationManager.init N) h]
  rfl

/-- Witness for C4: an assistant append with id `"id1"`, then a user append,
an assistant append with no id and an assistant append with an empty id — the
parent id stays `"id1"`. -/
theorem C4_parent_id_tracking_witness :
    (applyOps (ConversationManager.init 10)
        [.append 0 "assistant" "r1" (some "id1") "t1",
         .append 0 "user" "q" none "t2",
         .append 0 "assistant" "r2" none "t3",
         .append 0 "assistant" "r3" (some "") "t4"]).get_parent_id 0
      = some "id1" :=
  (C4_parent_id_tracking 10
    [.append 0 "assistant" "r1" (some "id1") "t1",
     .append 0 "user" "q" none "t2",
     .append 0 "assistant" "r2" none "t3",
     .append 0 "assistant" "r3" (some "") "t4"] 0 rfl).trans (by decide)

/-- Claim C5: after `clear_context` the history of the chat is empty and its
parent id is absent, whatever the prior state; clearing is idempotent, and
clearing an unknown chat id leaves the store unchanged. -/
theorem C5_reset_clears_and_idempotent (m : ConversationManager) (id : Int) :
    (m.clear_context id).get_context id = [] ∧
    (m.clear_context id).get_parent_id id = none ∧
    (m.clear_context id).clear_context id = m.clear_context id ∧
    (m.contexts id = none → m.parent_ids id = none → m.clear_context id = m) := by
  refine ⟨by simp [get_context_clear_context], by simp [get_parent_id_clear_context],
    ?_, ?_⟩
  · cases m with
    | mk ms cs ps =>
        simp only [ConversationManager.clear_context, ConversationManager.mk.injEq,
          true_and]
        refine ⟨?_, ?_⟩ <;>
          · funext j
            by_cases hj : j = id <;> simp [hj]
  · intro h1 h2
    cases m with
    | mk ms cs ps =>
        simp only [ConversationManager.clear_context, ConversationManager.mk.injEq,
          true_and]
        refine ⟨?_, ?_⟩
        · funext j
          by_cases hj : j = id
          · subst hj; simpa using h1.symm
          · simp [hj]
        · funext j
          by_cases hj : j = id
          · subst hj; simpa using h2.symm
          · simp [hj]

/-- Witness for C5: clearing a fresh store at an unknown chat id is a no-op. -/
theorem C5_reset_clears_and_idempotent_witness :
    (ConversationManager.init 10).clear_context 0 = ConversationManager.init 10 :=
  (C5_reset_clears_and_idempotent (ConversationManager.init 10) 0).2.2.2 rfl rfl

theorem process_message_fields (m : ConversationManager) (chat_id : Int)
    (msg ts1 ts2 : String) (call : String → Option String → CallResult) :
    (process_message m chat_id msg ts1 ts2 call).context_str
        = (m.add_message chat_id "user" msg none ts1).format_context_for_prompt
            chat_id ∧
    (process_message m chat_id msg ts1 ts2 call).full_prompt
        = build_prompt (m.add_message chat_id "user" msg none ts1) chat_id msg ∧
    (process_message m chat_id msg ts1 ts2 call).parent_id
        = (m.add_message chat_id "user" msg none ts1).get_parent_id chat_id := by
  cases h : call (build_prompt (m.add_message chat_id "user" msg none ts1) chat_id msg)
      ((m.add_message chat_id "user" msg none ts1).get_parent_id chat_id) <;>
    simp [process_message, h]

/-- Claim C6: when the agent call raises, the only store mutation of the
processing step is the append of the user turn, which happened before the
call; the parent-id map is unchanged. -/
theorem C6_failure_writes_only_user_turn (m : ConversationManager)
    (chat_id : Int) (msg ts1 ts2 : String)
    (call : String → Option String → CallResult)
    (h : (process_message m chat_id msg ts1 ts2 call).reply = none) :
    (process_message m chat_id msg ts1 ts2 call).store
        = m.add_message chat_id "user" msg none ts1 ∧
    (process_message m chat_id msg ts1 ts2 call).store.parent_ids
        = m.parent_ids := by
  cases hc : call (build_prompt (m.add_message chat_id "user" msg none ts1) chat_id msg)
      ((m.add_message chat_id "user" msg none ts1).get_parent_id chat_id) with
  | ok rt mid =>
      exfalso
      simp [process_message, hc] at h
  | failure =>
      constructor
      · simp [process_message, hc]
      · simp [process_message, hc]
        rfl

/-- Witness for C6: a failing call on a fresh store records exactly the user
turn. -/
theorem C6_failure_writes_only_user_turn_witness :
    (process_message (ConversationManager.init 10) 0 "hello" "t1" "t2"
        alwaysFail).store
      = (ConversationManager.init 10).add_message 0 "user" "hello" none "t1" :=
  (C6_failure_writes_only_user_turn (ConversationManager.init 10) 0 "hello"
    "t1" "t2" alwaysFail rfl).1

/-- Claim C9: when the history of the chat is empty, the rendered context is
empty and the prompt is exactly the current message, unchanged. -/
theorem C9_empty_history_prompt (m : ConversationManager) (chat_id : Int)
    (msg : String) (h : m.get_context chat_id = []) :
    m.format_context_for_prompt chat_id = "" ∧
    build_prompt m chat_id msg = msg := by
  have hf : m.format_context_for_prompt chat_id = "" := by
    simp [ConversationManager.format_context_for_prompt, h]
  exact ⟨hf, by simp [build_prompt, hf]⟩

/-- Witness for C9: a fresh store renders `"hello"` to exactly `"hello"`. -/
theorem C9_empty_history_prompt_witness :
    build_prompt (ConversationManager.init 10) 0 "hello" = "hello" :=
  (C9_empty_history_prompt (ConversationManager.init 10) 0 "hello" rfl).2

/-- Claim C10: the request payload carries the key `"parent_message_id"` iff
the supplied parent id is present and non-empty; an empty-string parent id —
the default the client itself returns when the provider response has no
`"id"` — is treated like an absent one. -/
theorem C10_parent_field_iff (message : String) (pid : Option String) :
    ("parent_message_id" ∈ (build_payload message pid).map Prod.fst
      ↔ ∃ s, pid = some s ∧ s ≠ "") ∧
    build_payload message (some "") = build_payload message none ∧
    (∀ access_id base_url reason body_message,
      call_agent access_id base_url
          (.response 200 reason (.ok ⟨body_message, none⟩))
        = .ok (body_message.getD "No response", "")) := by
  refine ⟨?_, rfl, fun _ _ _ _ => rfl⟩
  cases pid with
  | none => simp [build_payload]
  | some s =>
      by_cases hs : s = ""
      · subst hs
        simp [build_payload]
      · simp [build_payload, hs]

/-- Claim C8: on a 2xx response whose body decodes as JSON, the client returns
the `message` field (or the placeholder `"No response"` when absent) paired
with the `id` field (or `""` when absent); missing fields are not errors. -/
theorem C8_success_parse (access_id base_url : String) (status : Nat)
    (reason : String) (body_message body_id : Option String)
    (h2 : 200 ≤ status) (h3 : status < 300) :
    call_agent access_id base_url
        (.response status reason (.ok ⟨body_message, body_id⟩))
      = .ok (body_message.getD "No response", body_id.getD "") := by
  simp only [call_agent, raiseForStatusError]
  rw [if_neg (by omega), if_neg (by omega)]

/-- Witness for C8: the end-to-end example of the spec — a 200 response with
message `"hi there"` and id `"abc123"` returns exactly that pair. -/
theorem C8_success_parse_witness :
    call_agent "agent-1" "https://api.example"
        (.response 200 "OK" (.ok ⟨some "hi there", some "abc123"⟩))
      = .ok ("hi there", "abc123") :=
  C8_success_parse "agent-1" "https://api.example" 200 "OK"
    (some "hi there") (some "abc123") (by omega) (by omega)

/-- Counterexample to C7 as stated: a 303 response (not a 2xx status) whose
body decodes as JSON is returned as a success — `raise_for_status` only
raises for statuses in `[400, 600)`, so "non-2xx status" does not always fail. -/
theorem C7_counterexample :
    ¬(200 ≤ 303 ∧ 303 < 300) ∧
    call_agent "agent-1" "https://api.example"
        (.response 303 "See Other" (.ok ⟨some "ok", some "id1"⟩))
      = .ok ("ok", "id1") :=
  ⟨by omega, rfl⟩

/-- Claim C7 (amended): the client performs exactly one request per call (no
retries — only the first outcome of the stream is consulted); a timeout fails
with the `Timeout` error kind and its dedicated user-facing message, which
differs from every generic-failure message; any other transport error, and
any 4xx or 5xx status, fails with the `RequestFailed` kind carrying the
upstream detail, and the error is returned immediately. -/
theorem C7_error_kinds (access_id base_url : String) :
    (∀ outcomes : Nat → HttpOutcome,
      call_agent_on_stream access_id base_url outcomes
        = call_agent access_id base_url (outcomes 0)) ∧
    call_agent access_id base_url .timeout
        = .error (.timeout "Request timed out. Please try again.") ∧
    (∀ d, call_agent access_id base_url (.transportError d)
        = .error (.requestFailed ("Failed to get response from AI: " ++ d))) ∧
    (∀ status reason body, 400 ≤ status → status < 600 →
      ∃ detail, call_agent access_id base_url (.response status reason body)
        = .error (.requestFailed ("Failed to get response from AI: " ++ detail))) ∧
    (∀ d, "Request timed out. Please try again."
        ≠ "Failed to get response from AI: " ++ d) := by
  refine ⟨fun _ => rfl, rfl, fun _ => rfl, ?_, ?_⟩
  · intro status reason body h4 h6
    by_cases h5 : status < 500
    · refine ⟨toString status ++ " Client Error: " ++ reason ++ " for url: "
        ++ agentUrl access_id base_url, ?_⟩
      simp only [call_agent, raiseForStatusError]
      rw [if_pos ⟨h4, h5⟩]
    · refine ⟨toString status ++ " Server Error: " ++ reason ++ " for url: "
        ++ agentUrl access_id base_url, ?_⟩
      simp only [call_agent, raiseForStatusError]
      rw [if_neg (by omega), if_pos ⟨by omega, h6⟩]
  · intro d h
    have h2 := congrArg String.data h
    rw [String.data_append] at h2
    have h3 := congrArg (List.take 1) h2
    rw [List.take_append_of_le_length (by decide)] at h3
    revert h3
    decide

/-- Witness for C7 (amended): a 500 response yields a `RequestFailed` error
with the upstream HTTP error detail. -/
theorem C7_error_kinds_witness :
    ∃ detail, call_agent "agent-1" "https://api.example"
        (.response 500 "Internal Server Error" (.ok ⟨some "x", some "y"⟩))
      = .error (.requestFailed ("Failed to get response from AI: " ++ detail)) :=
  (C7_error_kinds "agent-1" "https://api.example").2.2.2.1 500
    "Internal Server Error" (.ok ⟨some "x", some "y"⟩) (by omega) (by omega)

theorem dequeAppend_pos (maxlen : Nat) (q : List Turn) (t : Turn)
    (h : 1 ≤ maxlen) :
    dequeAppend maxlen q t = q.drop (q.length + 1 - maxlen) ++ [t] := by
  show (q ++ [t]).drop ((q ++ [t]).length - maxlen) = _
  rw [List.length_append, List.length_cons, List.length_nil,
    List.drop_append_of_le_length (by omega)]

theorem format_append_last (m : ConversationManager) (chat_id : Int)
    (l : List Turn) (t : Turn) (h : m.get_context chat_id = l ++ [t]) :
    m.format_context_for_prompt chat_id
      = l.foldl (fun acc u => acc ++ turnLine u) "Previous conversation:\n"
        ++ turnLine t := by
  simp only [ConversationManager.format_context_for_prompt, h]
  rw [if_neg (by simp), List.foldl_append]
  simp

/-- Counterexample to C3 as stated: with prior history one user turn `"hi"`
and one assistant turn `"yo"`, processing the message `"hello"` renders a
transcript that does contain `"hello"` — the user message is appended to the
history before `format_context_for_prompt` is called, not after. -/
theorem C3_counterexample :
    (process_message historyHiYo 0 "hello" "t3" "t4" alwaysFail).context_str
      = "Previous conversation:\nUser: hi\nAssistant: yo\nUser: hello\n" ∧
    "hello".data <:+: (process_message historyHiYo 0 "hello" "t3" "t4"
        alwaysFail).context_str.data := by
  constructor
  · rfl
  · decide

/-- Claim C3 (amended): in the processing flow the rendering of the context
is pure, but it runs after the current user message has been appended, so
(whenever the capacity is at least 1) the transcript is non-empty and ends
with the line for the current message, and the full prompt is that transcript
followed by the current-message label. -/
theorem C3_transcript_contains_current (m : ConversationManager)
    (chat_id : Int) (msg ts1 ts2 : String)
    (call : String → Option String → CallResult) (h : 1 ≤ m.max_size) :
    (process_message m chat_id msg ts1 ts2 call).context_str ≠ "" ∧
    ("User: " ++ msg ++ "\n").data
        <:+ (process_message m chat_id msg ts1 ts2 call).context_str.data ∧
    (process_message m chat_id msg ts1 ts2 call).full_prompt
      = (process_message m chat_id msg ts1 ts2 call).context_str
          ++ "\nCurrent message: " ++ msg := by
  obtain ⟨hcs, hfp, -⟩ := process_message_fields m chat_id msg ts1 ts2 call
  have hctx : (m.add_message chat_id "user" msg none ts1).get_context chat_id
      = (m.get_context chat_id).drop
          ((m.get_context chat_id).length + 1 - m.max_size)
        ++ [⟨"user", msg, ts1⟩] := by
    rw [get_context_add_message, if_pos rfl, dequeAppend_pos _ _ _ h]
  have hline : turnLine ⟨"user", msg, ts1⟩ = "User: " ++ msg ++ "\n" := by
    show pyCapitalize "user" ++ ": " ++ msg ++ "\n" = "User: " ++ msg ++ "\n"
    rw [show pyCapitalize "user" ++ ": " = "User: " from by decide]
  have hfmt := format_append_last (m.add_message chat_id "user" msg none ts1)
    chat_id _ _ hctx
  rw [hline] at hfmt
  have hne : (m.add_message chat_id "user" msg none ts1).format_context_for_prompt
      chat_id ≠ "" := by
    rw [hfmt]
    intro he
    have hl := congrArg String.length he
    rw [String.length_append, String.length_append,
      show String.length "" = 0 from rfl,
      show String.length "\n" = 1 from rfl] at hl
    omega
  refine ⟨by rw [hcs]; exact hne, ?_, ?_⟩
  · rw [hcs, hfmt, String.data_append]
    exact List.suffix_append _ _
  · rw [hfp, hcs]
    simp only [build_prompt, beq_iff_eq]
    rw [if_neg hne]

/-- Witness for C3 (amended): in the concrete hi/yo scenario the transcript
ends with the line for `"hello"`. -/
theorem C3_transcript_contains_current_witness :
    ("User: " ++ "hello" ++ "\n").data
        <:+ (process_message historyHiYo 0 "hello" "t3" "t4"
            alwaysFail).context_str.data :=
  (C3_transcript_contains_current historyHiYo 0 "hello" "t3" "t4" alwaysFail
    (by decide)).2.1

end TgAgent
